import Mathlib

/-!
Shallow embedding of the ebayMasterApp spreadsheet cache and query layer
(src/app.py and src/onedrive.py).

Cell values are modelled by a closed variant `PyValue`.  Python floats are
modelled as rationals: `PyValue.floatv q` stands for a Python float whose
shortest round-trip decimal representation denotes exactly `q`; this holds
for every float value exercised in the development (integral floats and
short decimal fractions such as 12345.5), so Python's `str` on such a float
is the exact decimal expansion of `q`.
-/

/-- A non-null Python cell value as produced by openpyxl with `data_only=True`:
text, int, float, or bool.  An absent cell is `none` at use sites. -/
inductive PyValue : Type
  | text (s : String)
  | intv (n : ℤ)
  | floatv (q : ℚ)
  | boolv (b : Bool)
  deriving DecidableEq, Repr

/-- Decimal digits of the fraction `rem/den` (with `rem < den`), fuel-bounded.
Renders the fractional part of a non-integral float the way Python `str`
does for short terminating decimals. -/
def fracDigits (den : ℕ) : ℕ → ℕ → String
  | _, 0 => ""
  | 0, _ => ""
  | rem, fuel+1 =>
    String.singleton (Char.ofNat (48 + rem * 10 / den)) ++
      fracDigits den (rem * 10 % den) fuel

/-- Python `str` on a float: integral values render with a trailing ".0"
(`str(12345.0) = "12345.0"`), non-integral values as sign, integer part,
decimal point and fractional digits (`str(12345.5) = "12345.5"`). -/
def floatStr (q : ℚ) : String :=
  if q.den = 1 then toString q.num ++ ".0"
  else
    (if q < 0 then "-" else "") ++ toString (q.num.natAbs / q.den) ++ "." ++
      fracDigits q.den (q.num.natAbs % q.den) 80

/-- Python `str(value)` on a non-null cell value. -/
def pyStr : PyValue → String
  | .text s => s
  | .intv n => toString n
  | .floatv q => floatStr q
  | .boolv b => if b then "True" else "False"

/-- Python truthiness test on a cell value, as used by `val or f"({letter})"`:
empty string, zero (int or float) and False are falsy. -/
def PyValue.falsy : PyValue → Bool
  | .text s => s == ""
  | .intv n => n == 0
  | .floatv q => q == 0
  | .boolv b => !b

/-- Fuel-bounded core of `colLetter`; fuel = the input itself always
suffices, since the recursive call divides the index by 26. -/
def colLetterGo : ℕ → ℕ → String
  | _, 0 => ""
  | 0, _+1 => ""
  | fuel+1, n+1 => colLetterGo fuel (n / 26) ++ String.singleton (Char.ofNat (65 + n % 26))

/-- `openpyxl.utils.get_column_letter`: bijective base-26 column letters
(1 → "A", 26 → "Z", 27 → "AA", 28 → "AB"). -/
def colLetter (n : ℕ) : String := colLetterGo n n

/-- HEADER_ROW = 5. -/
def HEADER_ROW : ℕ := 5

/-- DATA_START_ROW = 6. -/
def DATA_START_ROW : ℕ := 6

/-- MAX_COL = 28 (columns A through AB). -/
def MAX_COL : ℕ := 28

/-- One entry of the computed header list:
`{"col": col+1, "letter": ..., "name": ...}`. -/
structure Header where
  col : ℕ
  letter : String
  name : PyValue
  deriving DecidableEq, Repr

/-- The per-sheet cache snapshot that queries read: `rows_data` (row index ↦
cell values), `headers`, and `max_row`. -/
structure Store where
  rowsData : List (ℕ × List (Option PyValue))
  headers : List Header
  maxRow : ℕ
  deriving DecidableEq, Repr

/-- Python `rows_data.get(r)`: the values stored at row `r`, if any. -/
def Store.get (s : Store) (r : ℕ) : Option (List (Option PyValue)) :=
  (s.rowsData.find? (fun p => p.1 == r)).map (fun p => p.2)

/-- The row-collection loop of `_parse_workbook`: the workbook iterator yields
consecutive rows starting at index `r`; a row is stored iff at least one of
its cells is non-null (`any(v is not None for v in values)`). -/
def parseRowsGo : ℕ → List (List (Option PyValue)) → List (ℕ × List (Option PyValue))
  | _, [] => []
  | r, values :: rest =>
    if values.any Option.isSome then (r, values) :: parseRowsGo (r+1) rest
    else parseRowsGo (r+1) rest

/-- `max_data_row`: initialized to HEADER_ROW and overwritten by each stored
row's index, so it ends as the last stored index (or the initial value). -/
def lastKey (init : ℕ) (l : List (ℕ × List (Option PyValue))) : ℕ :=
  l.foldl (fun _ p => p.1) init

/-- `val or f"({letter})"`: the header cell value, or the synthesized
placeholder when the cell is absent or its value is Python-falsy. -/
def headerNameOf (val : Option PyValue) (letter : String) : PyValue :=
  match val with
  | none => .text ("(" ++ letter ++ ")")
  | some v => if v.falsy then .text ("(" ++ letter ++ ")") else v

/-- `_parse_workbook`: build the Store from the sheet's raw rows.  The input
list holds the cell values of consecutive worksheet rows starting at
HEADER_ROW (openpyxl pads every row to MAX_COL cells). -/
def parse_workbook (input : List (List (Option PyValue))) : Store :=
  let rowsData := parseRowsGo HEADER_ROW input
  let maxRow := lastKey HEADER_ROW rowsData
  let headerValues :=
    ((rowsData.find? (fun p => p.1 == HEADER_ROW)).map (fun p => p.2)).getD
      (List.replicate MAX_COL none)
  let headers := (List.range MAX_COL).map fun i =>
    let letter := colLetter (i+1)
    ⟨i+1, letter, headerNameOf (headerValues.getD i none) letter⟩
  ⟨rowsData, headers, maxRow⟩

/-- Well-formedness of a Store, as `_parse_workbook` guarantees on real
worksheet input: the headers carry the canonical MAX_COL column letters in
order, and every stored row holds exactly MAX_COL cells. -/
def Store.WF (s : Store) : Prop :=
  s.headers.map Header.letter = (List.range MAX_COL).map (fun i => colLetter (i+1)) ∧
  ∀ p ∈ s.rowsData, (p.2 : List (Option PyValue)).length = MAX_COL

instance (s : Store) : Decidable s.WF := by
  unfold Store.WF; infer_instance

/-- `val = row_values[col] if col < len(row_values) else None;`
`str(val) if val is not None else None`. -/
def pyCell (vs : List (Option PyValue)) (col : ℕ) : Option String :=
  (vs.getD col none).map pyStr

/-- The JSON body returned by a successful `/api/cell` request. -/
structure CellResult where
  col : ℤ
  row : ℤ
  header : PyValue
  value : Option String
  deriving DecidableEq, Repr

/-- A default header; only reachable on stores that violate `Store.WF`
(where the Python code would raise IndexError instead). -/
def dummyHeader : Header := ⟨0, "", .text ""⟩

/-- `get_cell` (/api/cell): validate the column against 1..MAX_COL and the row
against DATA_START_ROW..max_row, then render the cell with plain `str`. -/
def get_cell (s : Store) (col row : ℤ) : Except String CellResult :=
  if col < 1 ∨ col > (MAX_COL : ℤ) then .error "col out of range"
  else if row < (DATA_START_ROW : ℤ) ∨ row > (s.maxRow : ℤ) then .error "row out of range"
  else
    .ok ⟨col, row, (s.headers.getD (col - 1).toNat dummyHeader).name,
      pyCell ((s.get row.toNat).getD []) (col - 1).toNat⟩

/-- One rendered output row: column letter ↦ rendered text (or null), over all
MAX_COL columns; an absent row renders as all-null via `vs = []`. -/
def renderRow (headers : List Header) (vs : List (Option PyValue)) :
    List (String × Option String) :=
  (List.range MAX_COL).map fun i => ((headers.getD i dummyHeader).letter, pyCell vs i)

/-- The JSON body returned by `/api/range`. -/
structure RangeResult where
  rowStart : ℤ
  rowEnd : ℤ
  headers : List Header
  rows : List (ℕ × List (String × Option String))
  deriving DecidableEq, Repr

/-- `get_range` (/api/range): clamp `row_start` up to DATA_START_ROW, clamp
`row_end` down to `max_row`, cap the span at 100 rows, then render every row
index in the effective range and echo the effective bounds. -/
def get_range (s : Store) (rowStart rowEnd : ℤ) : RangeResult :=
  let rs := max rowStart (DATA_START_ROW : ℤ)
  let re0 := min rowEnd (s.maxRow : ℤ)
  let re := if re0 - rs > 100 then rs + 100 else re0
  let idxs := List.range' rs.toNat (re + 1 - rs).toNat
  ⟨rs, re, s.headers, idxs.map fun r => (r, renderRow s.headers ((s.get r).getD []))⟩

/-- Python's ASCII whitespace, as stripped by `str.strip()`. -/
def pyWS (c : Char) : Bool :=
  c == ' ' || c == '\t' || c == '\n' || c == '\r' || c == '\x0b' || c == '\x0c'

/-- Python `str.strip()`: drop whitespace from both ends. -/
def pyStrip (s : String) : String :=
  ⟨((s.data.dropWhile pyWS).reverse.dropWhile pyWS).reverse⟩

/-- The search-column normalization of `api_search`:
`str(int(b_val)) if isinstance(b_val, float) and b_val == int(b_val) else str(b_val)`. -/
def bNorm : PyValue → String
  | .floatv q => if q.den = 1 then toString q.num else floatStr q
  | v => pyStr v

/-- Python `query in text`: does `query` occur in `text` as a substring? -/
def strContainsSub (text query : String) : Bool :=
  (List.range (text.toList.length - query.toList.length + 1)).any
    (fun i => (text.toList.drop i).take query.toList.length == query.toList)

/-- One matched row of a search response. -/
structure SearchHit where
  row : ℕ
  data : List (String × Option String)
  deriving DecidableEq, Repr

/-- The body of the search loop for one row index `r`: skip unstored/empty
rows and null B cells; an out-of-range `row_values[1]` raises IndexError;
a B cell whose normalized, trimmed text contains the query appends the
rendered row. -/
def searchStep (s : Store) (query : String) (acc : List SearchHit) (r : ℕ) :
    Except String (List SearchHit) :=
  match s.get r with
  | none => .ok acc
  | some vs =>
    if vs.isEmpty then .ok acc
    else if vs.length ≤ 1 then .error "IndexError"
    else
      match vs.getD 1 none with
      | none => .ok acc
      | some b =>
        if strContainsSub (pyStrip (bNorm b)) query then
          .ok (acc ++ [⟨r, renderRow s.headers vs⟩])
        else .ok acc

/-- The search loop over a list of row indices, accumulating matches. -/
def searchLoop (s : Store) (query : String) :
    List SearchHit → List ℕ → Except String (List SearchHit)
  | acc, [] => .ok acc
  | acc, r :: rest =>
    match searchStep s query acc r with
    | .error e => .error e
    | .ok acc2 => searchLoop s query acc2 rest

/-- The JSON body returned by a successful `/api/search` request. -/
structure SearchResult where
  query : String
  count : ℕ
  headers : List Header
  rows : List SearchHit
  deriving DecidableEq, Repr

/-- `api_search` (/api/search): strip the query, reject an empty query, then
scan row indices DATA_START_ROW..max_row. -/
def api_search (s : Store) (q : String) : Except String SearchResult :=
  let query := pyStrip q
  if query = "" then .error "empty query"
  else
    match searchLoop s query [] (List.range' DATA_START_ROW (s.maxRow + 1 - DATA_START_ROW)) with
    | .error e => .error e
    | .ok matched => .ok ⟨query, matched.length, s.headers, matched⟩

/-- The claim-level match predicate: row `r` is stored, its B cell (index 1)
is non-null, and its normalized, trimmed text contains the query.  On
well-formed stores this is exactly the code's per-row test. -/
def rowMatches (s : Store) (query : String) (r : ℕ) : Bool :=
  match s.get r with
  | none => false
  | some vs =>
    match vs.getD 1 none with
    | none => false
    | some b => strContainsSub (pyStrip (bNorm b)) query

/-- The scanned row indices of a search: DATA_START_ROW .. max_row. -/
def rowRange (s : Store) : List ℕ :=
  List.range' DATA_START_ROW (s.maxRow + 1 - DATA_START_ROW)

/-!
### Cache and fetcher model (src/onedrive.py and the cache logic of src/app.py)

A downloaded byte blob is identified by what it decodes to, which is all the
cache logic observes about it: `.error` = bytes that `openpyxl.load_workbook`
rejects, `.ok none` = a workbook without the configured sheet (so
`wb[SHEET_NAME]` raises KeyError), `.ok (some rows)` = the sheet's raw rows.
-/

/-- A fetched byte blob, identified by its decode result. -/
def Bytes : Type := Except String (Option (List (List (Option PyValue))))

/-- The module-level `_cache` of onedrive.py (the fields the cache logic
reads: the cached blob and the time of the last successful fetch). -/
structure FetcherState where
  data : Option Bytes
  fetchedAt : ℚ

/-- `_is_cache_fresh`: cached bytes exist and are younger than CACHE_TTL
(300 seconds). -/
def is_cache_fresh (f : FetcherState) (now : ℚ) : Bool :=
  match f.data with
  | none => false
  | some _ => decide (now - f.fetchedAt < 300)

/-- `invalidate_cache`: drop the cached bytes and reset `fetched_at` to 0. -/
def invalidate_cache (_f : FetcherState) : FetcherState := ⟨none, 0⟩

/-- `fetch_xlsm`: serve fresh cached bytes without a network request;
otherwise perform the download (the Bool flag records that a real request
was made), caching the bytes on success and leaving the fetcher cache
untouched when the download raises. -/
def fetch_xlsm (f : FetcherState) (now : ℚ) (dl : Except String Bytes) :
    FetcherState × Except String Bytes × Bool :=
  if is_cache_fresh f now then
    (f, .ok (f.data.getD (.error "unreachable")), false)
  else
    match dl with
    | .error e => (f, .error e, true)
    | .ok b => (⟨some b, now⟩, .ok b, true)

/-- The module-level `_cache` of app.py:
`{rows_data, headers, mtime, source, max_row}`. -/
structure CacheState where
  rowsData : Option (List (ℕ × List (Option PyValue)))
  headers : Option (List Header)
  mtime : Option ℚ
  source : Option String
  maxRow : ℕ
  deriving DecidableEq, Repr

/-- `openpyxl.load_workbook` followed by `_parse_workbook`: a decode failure
or a missing sheet propagates as an error. -/
def load_and_parse (b : Bytes) : Except String Store :=
  match b with
  | .error e => .error e
  | .ok none => .error "KeyError: sheet"
  | .ok (some rows) => .ok (parse_workbook rows)

/-- The outcome of one `_get_data_onedrive` call. -/
structure ODResult where
  cache : CacheState
  fetcher : FetcherState
  result : Except String Unit
  didFetch : Bool

/-- The tail of a successful fetch on the OneDrive path: commit the parsed
Store with `_cache.update(...)`, or propagate the load/parse error leaving
the cache untouched. -/
def commit_onedrive (c : CacheState) (f2 : FetcherState) (did : Bool)
    (lp : Except String Store) : ODResult :=
  match lp with
  | .error e => ⟨c, f2, .error e, did⟩
  | .ok s =>
    ⟨⟨some s.rowsData, some s.headers, none, some "onedrive", s.maxRow⟩, f2, .ok (), did⟩

/-- `_get_data_onedrive`: serve the row cache when source is "onedrive", rows
are present and the fetcher cache is fresh; otherwise fetch the bytes, parse
them and overwrite the cache entry.  `now1` is the clock at the function's
own freshness check, `now2` at `fetch_xlsm`'s check; `dl` is what a real
download would produce (`.error` = network failure). -/
def get_data_onedrive (c : CacheState) (f : FetcherState) (now1 now2 : ℚ)
    (dl : Except String Bytes) : ODResult :=
  if c.source == some "onedrive" && c.rowsData.isSome && is_cache_fresh f now1 then
    ⟨c, f, .ok (), false⟩
  else
    match (fetch_xlsm f now2 dl).2.1 with
    | .error e => ⟨c, (fetch_xlsm f now2 dl).1, .error e, (fetch_xlsm f now2 dl).2.2⟩
    | .ok b =>
      commit_onedrive c (fetch_xlsm f now2 dl).1 (fetch_xlsm f now2 dl).2.2 (load_and_parse b)

/-- The tail of a rebuild on the local path: commit the parsed Store with
`_cache.update(...)` (storing the new mtime), or propagate the load/parse
error leaving the cache untouched. -/
def commit_local (c : CacheState) (mtime : ℚ) (lp : Except String Store) :
    CacheState × Except String Unit :=
  match lp with
  | .error e => (c, .error e)
  | .ok s => (⟨some s.rowsData, some s.headers, some mtime, some "local", s.maxRow⟩, .ok ())

/-- `_get_data_local`: `file` is the current state of the xlsm path — `none`
when no file matches the glob (FileNotFoundError), else its mtime and bytes.
Serve the cache when the stored mtime matches and the source is "local";
otherwise parse and overwrite the cache entry. -/
def get_data_local (c : CacheState) (file : Option (ℚ × Bytes)) :
    CacheState × Except String Unit :=
  match file with
  | none => (c, .error "FileNotFoundError")
  | some (mtime, b) =>
    if c.mtime == some mtime && c.source == some "local" then (c, .ok ())
    else commit_local c mtime (load_and_parse b)

/-- `_refresh_onedrive`: invalidate the fetcher cache and clear rows_data,
headers, mtime and source (`max_row` is not touched by the update call). -/
def refresh_onedrive (c : CacheState) (f : FetcherState) : CacheState × FetcherState :=
  (⟨none, none, none, none, c.maxRow⟩, invalidate_cache f)

/-- Is an `Except` an error? -/
def Except.isErr : Except ε α → Bool
  | .error _ => true
  | .ok _ => false

/-!
### Concrete fixtures
-/

/-- Canonical well-formed headers for MAX_COL columns. -/
def wfHeaders : List Header :=
  (List.range MAX_COL).map fun i => ⟨i+1, colLetter (i+1), .text "h"⟩

/-- A stored data row: A = 12345.0 (integral float), B = "ID-123", C = 7. -/
def rowA : List (Option PyValue) :=
  [some (.floatv 12345), some (.text "ID-123"), some (.intv 7)] ++ List.replicate 25 none

/-- A store with one data row at index 6. -/
def storeA : Store := ⟨[(6, rowA)], wfHeaders, 6⟩

/-- An empty-bodied store whose max_row is 300. -/
def storeB : Store := ⟨[], wfHeaders, 300⟩

/-- An empty-bodied store whose max_row is 50. -/
def storeC : Store := ⟨[], wfHeaders, 50⟩

/-- An empty-bodied store whose max_row is 10. -/
def storeD : Store := ⟨[], wfHeaders, 10⟩

/-- Python dict access `data[letter]` on a rendered row (letters are unique,
so first-match association lookup equals dict lookup). -/
def lookupLetter (l : List (String × Option String)) (k : String) : Option (Option String) :=
  (l.find? (fun p => p.1 == k)).map (fun p => p.2)

/-- The header-row cell of 0-based column i in the raw worksheet input: the
first input row is the header row (absent or short rows give null). -/
def headerCell (input : List (List (Option PyValue))) (i : ℕ) : Option PyValue :=
  (input.getD 0 []).getD i none

/-- The environment for the C5 witness: an empty cache, an empty fetcher, a
failing download and a missing local file. -/
def cacheE : CacheState := ⟨none, none, none, none, 0⟩

/-- An empty fetcher cache. -/
def fetcherE : FetcherState := ⟨none, 0⟩

/-- A tiny workbook for the C6 witness: the header row holds the single value
0, which counts as present, so row 5 is stored. -/
def inputF : List (List (Option PyValue)) := [[some (.intv 0)]]

/-- A workbook whose header row holds the single text "Name". -/
def inputG : List (List (Option PyValue)) := [[some (.text "Name")]]

example : colLetter 1 = "A" := by decide
example : colLetter 26 = "Z" := by decide
example : colLetter 27 = "AA" := by decide
example : colLetter 28 = "AB" := by decide
example : floatStr (12345 : ℚ) = "12345.0" := by decide
example : floatStr (mkRat 24691 2) = "12345.5" := by decide
example : bNorm (.floatv (12345 : ℚ)) = "12345" := by decide
example : strContainsSub "abc123xyz" "123" = true := by decide
example : strContainsSub "abc" "123" = false := by decide

/-!
### Claim theorems
-/

/-- C1 (amended): for every in-bounds cell lookup on a well-formed store,
`get_cell` succeeds and renders the cell with Python's plain `str` — an
integral float keeps its trailing ".0" (e.g. 12345.0 renders as "12345.0"),
a non-integral float renders as its decimal text, and an absent cell (row
not stored, row too short, or null cell) is returned as null, never the
empty string. -/
theorem c1_cell_value_plain_str (s : Store) (_hwf : s.WF) (col row : ℤ)
    (h1 : 1 ≤ col) (h2 : col ≤ 28) (h3 : 6 ≤ row) (h4 : row ≤ (s.maxRow : ℤ)) :
    ∃ res, get_cell s col row = Except.ok res ∧
      (s.get row.toNat = none → res.value = none) ∧
      (∀ vs, s.get row.toNat = some vs → vs.getD (col - 1).toNat none = none →
        res.value = none) ∧
      (∀ vs v, s.get row.toNat = some vs → vs.getD (col - 1).toNat none = some v →
        res.value = some (pyStr v)) := by
  have hc : ¬(col < 1 ∨ col > (MAX_COL : ℤ)) := by
    simp only [MAX_COL]; push_neg; omega
  have hr : ¬(row < (DATA_START_ROW : ℤ) ∨ row > (s.maxRow : ℤ)) := by
    simp only [DATA_START_ROW]; push_neg; omega
  refine ⟨⟨col, row, (s.headers.getD (col - 1).toNat dummyHeader).name,
    pyCell ((s.get row.toNat).getD []) (col - 1).toNat⟩, ?_, ?_, ?_, ?_⟩
  · simp only [get_cell, if_neg hc, if_neg hr]
  · intro hget
    simp [pyCell, hget]
  · intro vs hget hcell
    have he : (col - 1).toNat = col.toNat - 1 := by omega
    rw [he, List.getD_eq_getElem?_getD] at hcell
    simp [pyCell, hget, hcell]
  · intro vs v hget hcell
    have he : (col - 1).toNat = col.toNat - 1 := by omega
    rw [he, List.getD_eq_getElem?_getD] at hcell
    simp [pyCell, hget, hcell]

/-- Witness for C1 at storeA, column 1, row 6. -/
theorem c1_cell_value_plain_str_witness :
    storeA.WF ∧ (1:ℤ) ≤ 1 ∧ (1:ℤ) ≤ 28 ∧ (6:ℤ) ≤ 6 ∧ (6:ℤ) ≤ (storeA.maxRow : ℤ) ∧
    (∃ res, get_cell storeA 1 6 = Except.ok res ∧
      (storeA.get (6:ℤ).toNat = none → res.value = none) ∧
      (∀ vs, storeA.get (6:ℤ).toNat = some vs → vs.getD ((1:ℤ) - 1).toNat none = none →
        res.value = none) ∧
      (∀ vs v, storeA.get (6:ℤ).toNat = some vs → vs.getD ((1:ℤ) - 1).toNat none = some v →
        res.value = some (pyStr v))) :=
  ⟨by decide, by decide, by decide, by decide, by decide,
    c1_cell_value_plain_str storeA (by decide) 1 6 (by decide) (by decide) (by decide) (by decide)⟩

/-- C1 counterexample: at storeA the cell (column 1, row 6) holds the
integral float 12345.0; the claim says it renders as "12345", but `get_cell`
returns "12345.0". -/
theorem c1_integral_float_counterexample :
    get_cell storeA 1 6 = Except.ok ⟨1, 6, .text "h", some "12345.0"⟩ ∧
    some "12345.0" ≠ some "12345" := by
  exact ⟨by rfl, by decide⟩

/-- C3 counterexample: at storeC (max_row 50) the request (6, 200) has a
requested span of 194 > 100, yet the effective row_end echoed is 50 (the
max_row clamp), not row_start + 100 = 106 as the claim states. -/
theorem c3_requested_span_counterexample :
    ((200 : ℤ) - 6 > 100) ∧ (get_range storeC 6 200).rowEnd ≠ 6 + 100 := by
  constructor
  · decide
  · decide

/-- C3 (amended): the 100-row cap applies to the clamped span: whenever
`min row_end max_row - max row_start DATA_START_ROW > 100`, the effective
row_end equals the clamped row_start plus 100. -/
theorem c3_span_cap_after_clamp (s : Store) (rowStart rowEnd : ℤ)
    (h : min rowEnd (s.maxRow : ℤ) - max rowStart (DATA_START_ROW : ℤ) > 100) :
    (get_range s rowStart rowEnd).rowEnd = max rowStart (DATA_START_ROW : ℤ) + 100 := by
  simp only [get_range, if_pos h]

/-- Witness for C3 (amended) at storeB (max_row 300), request (6, 300). -/
theorem c3_span_cap_after_clamp_witness :
    (min (300 : ℤ) (storeB.maxRow : ℤ) - max (6 : ℤ) (DATA_START_ROW : ℤ) > 100) ∧
    (get_range storeB 6 300).rowEnd = max (6 : ℤ) (DATA_START_ROW : ℤ) + 100 :=
  ⟨by decide, c3_span_cap_after_clamp storeB 6 300 (by decide)⟩

/-- C7 counterexample: at storeB (max_row 300) the request (6, 400) has
row_end above max_row; the claim says the effective row_end is clamped down
to max_row (300), but the 100-row cap makes it 106. -/
theorem c7_clamp_counterexample :
    ((400 : ℤ) > (storeB.maxRow : ℤ)) ∧ (get_range storeB 6 400).rowEnd ≠ (storeB.maxRow : ℤ) := by
  constructor
  · decide
  · decide

/-- C7 (amended): the effective row_start is the requested one clamped up to
DATA_START_ROW; the effective row_end is the requested one clamped down to
max_row and then capped at row_start + 100; the response echoes those
effective bounds, and its rows are exactly the indices between them. -/
theorem c7_clamp_and_echo (s : Store) (rowStart rowEnd : ℤ) :
    (get_range s rowStart rowEnd).rowStart = max rowStart (DATA_START_ROW : ℤ) ∧
    (get_range s rowStart rowEnd).rowEnd =
      min (min rowEnd (s.maxRow : ℤ)) (max rowStart (DATA_START_ROW : ℤ) + 100) ∧
    ∀ r : ℕ, (r ∈ (get_range s rowStart rowEnd).rows.map Prod.fst ↔
      (get_range s rowStart rowEnd).rowStart ≤ (r : ℤ) ∧
        (r : ℤ) ≤ (get_range s rowStart rowEnd).rowEnd) := by
  refine ⟨rfl, ?_, ?_⟩
  · simp only [get_range]
    split <;> omega
  · intro r
    simp only [get_range, List.map_map]
    have hcomp : (Prod.fst ∘ fun r : ℕ => (r, renderRow s.headers ((s.get r).getD []))) = id := rfl
    rw [hcomp, List.map_id, List.mem_range'_1]
    have h6 : (0 : ℤ) ≤ max rowStart (DATA_START_ROW : ℤ) := by
      simp only [DATA_START_ROW]; omega
    constructor
    · intro ⟨ha, hb⟩
      constructor <;> [skip; skip] <;> split at hb <;> omega
    · intro ⟨ha, hb⟩
      split at hb <;> constructor <;> omega

/-- C10: when the clamped row_start exceeds the clamped row_end (e.g.
row_start requested beyond max_row), get_range still succeeds: it returns an
empty rows list and echoes the crossed bounds (row_end < row_start). -/
theorem c10_crossed_bounds_empty (s : Store) (rowStart rowEnd : ℤ)
    (h : min rowEnd (s.maxRow : ℤ) < max rowStart (DATA_START_ROW : ℤ)) :
    (get_range s rowStart rowEnd).rows = [] ∧
    (get_range s rowStart rowEnd).rowStart = max rowStart (DATA_START_ROW : ℤ) ∧
    (get_range s rowStart rowEnd).rowEnd = min rowEnd (s.maxRow : ℤ) ∧
    (get_range s rowStart rowEnd).rowEnd < (get_range s rowStart rowEnd).rowStart := by
  have hno : ¬(min rowEnd (s.maxRow : ℤ) - max rowStart (DATA_START_ROW : ℤ) > 100) := by omega
  have hcnt : (min rowEnd (s.maxRow : ℤ) + 1 - max rowStart (DATA_START_ROW : ℤ)).toNat = 0 := by
    omega
  refine ⟨?_, rfl, ?_, ?_⟩
  · simp only [get_range, if_neg hno, hcnt, List.range']
    rfl
  · simp only [get_range, if_neg hno]
  · simp only [get_range, if_neg hno]
    omega

/-- Witness for C10 at storeD (max_row 10), request (20, 30). -/
theorem c10_crossed_bounds_empty_witness :
    (min (30 : ℤ) (storeD.maxRow : ℤ) < max (20 : ℤ) (DATA_START_ROW : ℤ)) ∧
    ((get_range storeD 20 30).rows = [] ∧
     (get_range storeD 20 30).rowStart = max (20 : ℤ) (DATA_START_ROW : ℤ) ∧
     (get_range storeD 20 30).rowEnd = min (30 : ℤ) (storeD.maxRow : ℤ) ∧
     (get_range storeD 20 30).rowEnd < (get_range storeD 20 30).rowStart) :=
  ⟨by decide, c10_crossed_bounds_empty storeD 20 30 (by decide)⟩

/-- Searching the canonical letter list for the letter of column c+1 finds
exactly position c: the 28 column letters are pairwise distinct. -/
lemma find_colLetter : ∀ c : Fin MAX_COL,
    (List.range MAX_COL).find? (fun i => colLetter (i+1) == colLetter (c.1+1)) = some c.1 := by
  decide

/-- On well-formed headers, the header at index i carries letter i+1. -/
lemma wf_header_letter (headers : List Header)
    (hh : headers.map Header.letter = (List.range MAX_COL).map (fun i => colLetter (i+1)))
    (i : ℕ) (hi : i < MAX_COL) :
    (headers.getD i dummyHeader).letter = colLetter (i+1) := by
  have h1 : (headers.map Header.letter)[i]? = some (colLetter (i+1)) := by
    rw [hh, List.getElem?_map, List.getElem?_range hi]
    rfl
  rw [List.getElem?_map] at h1
  rw [List.getD_eq_getElem?_getD]
  cases h2 : headers[i]? with
  | none => rw [h2] at h1; simp at h1
  | some hd =>
    rw [h2] at h1
    simp only [Option.map_some'] at h1
    simp only [Option.getD_some]
    exact Option.some_injective _ h1

/-- Looking up the letter of column c (1-based) in a rendered row returns the
rendered cell of column index c-1. -/
lemma renderRow_lookup (headers : List Header)
    (hh : headers.map Header.letter = (List.range MAX_COL).map (fun i => colLetter (i+1)))
    (vs : List (Option PyValue)) (c : ℕ) (hc1 : 1 ≤ c) (hc2 : c ≤ MAX_COL) :
    lookupLetter (renderRow headers vs) (colLetter c) = some (pyCell vs (c - 1)) := by
  have hrr : renderRow headers vs =
      (List.range MAX_COL).map (fun i => (colLetter (i+1), pyCell vs i)) := by
    unfold renderRow
    apply List.map_congr_left
    intro i hi
    rw [wf_header_letter headers hh i (List.mem_range.mp hi)]
  rw [lookupLetter, hrr, List.find?_map]
  have hp : ((fun p : String × Option String => p.1 == colLetter c) ∘
      fun i => (colLetter (i+1), pyCell vs i)) = fun i => colLetter (i+1) == colLetter c := rfl
  rw [hp]
  obtain ⟨k, hk⟩ : ∃ k, c = k + 1 := ⟨c - 1, by omega⟩
  subst hk
  rw [find_colLetter ⟨k, by omega⟩]
  simp

/-- C2: for every in-bounds coordinate on a well-formed store, the value
get_cell returns equals what get_range reports for the same row under the
header letter of that column, over the same Row Store snapshot. -/
theorem c2_cell_range_agree (s : Store) (hwf : s.WF) (col row : ℤ)
    (h1 : 1 ≤ col) (h2 : col ≤ 28) (h3 : 6 ≤ row) (h4 : row ≤ (s.maxRow : ℤ)) :
    ∃ res, get_cell s col row = Except.ok res ∧
      ∃ entry ∈ (get_range s row row).rows, (entry.1 : ℤ) = row ∧
        lookupLetter entry.2 (colLetter col.toNat) = some res.value := by
  have hc : ¬(col < 1 ∨ col > (MAX_COL : ℤ)) := by
    simp only [MAX_COL]; push_neg; omega
  have hr : ¬(row < (DATA_START_ROW : ℤ) ∨ row > (s.maxRow : ℤ)) := by
    simp only [DATA_START_ROW]; push_neg; omega
  have hno : ¬(min row (s.maxRow : ℤ) - max row (DATA_START_ROW : ℤ) > 100) := by
    simp only [DATA_START_ROW]; omega
  have hcnt : (min row (s.maxRow : ℤ) + 1 - max row (DATA_START_ROW : ℤ)).toNat = 1 := by
    simp only [DATA_START_ROW]; omega
  have hmax : (max row (DATA_START_ROW : ℤ)).toNat = row.toNat := by
    simp only [DATA_START_ROW]; omega
  refine ⟨⟨col, row, (s.headers.getD (col - 1).toNat dummyHeader).name,
      pyCell ((s.get row.toNat).getD []) (col - 1).toNat⟩,
    by simp only [get_cell, if_neg hc, if_neg hr], ?_⟩
  refine ⟨(row.toNat, renderRow s.headers ((s.get row.toNat).getD [])), ?_, by omega, ?_⟩
  · simp only [get_range, if_neg hno, hcnt, hmax, List.range'_one, List.map_cons, List.map_nil]
    exact List.mem_singleton.mpr rfl
  · have hv : lookupLetter (renderRow s.headers ((s.get row.toNat).getD []))
        (colLetter col.toNat) =
        some (pyCell ((s.get row.toNat).getD []) (col.toNat - 1)) :=
      renderRow_lookup s.headers hwf.1 _ col.toNat (by omega)
        (by simp only [MAX_COL]; omega)
    rw [hv]
    have he : (col - 1).toNat = col.toNat - 1 := by omega
    rw [he]

/-- Witness for C2 at storeA, column 2, row 6. -/
theorem c2_cell_range_agree_witness :
    storeA.WF ∧ (1:ℤ) ≤ 2 ∧ (2:ℤ) ≤ 28 ∧ (6:ℤ) ≤ 6 ∧ (6:ℤ) ≤ (storeA.maxRow : ℤ) ∧
    (∃ res, get_cell storeA 2 6 = Except.ok res ∧
      ∃ entry ∈ (get_range storeA 6 6).rows, (entry.1 : ℤ) = 6 ∧
        lookupLetter entry.2 (colLetter (2:ℤ).toNat) = some res.value) :=
  ⟨by decide, by decide, by decide, by decide, by decide,
    c2_cell_range_agree storeA (by decide) 2 6 (by decide) (by decide) (by decide) (by decide)⟩

/-- A row found by `Store.get` is one of the stored rows. -/
lemma Store.get_mem (s : Store) (r : ℕ) (vs : List (Option PyValue))
    (h : s.get r = some vs) : ∃ p ∈ s.rowsData, p.2 = vs := by
  unfold Store.get at h
  cases hf : s.rowsData.find? (fun p => p.1 == r) with
  | none => rw [hf] at h; simp at h
  | some p =>
    rw [hf] at h
    simp only [Option.map_some'] at h
    exact ⟨p, List.mem_of_find?_eq_some hf, Option.some_injective _ h⟩

/-- The search loop never raises on a store whose rows all have MAX_COL
cells, and collects exactly the rendered rows whose indices pass
`rowMatches`, in input order. -/
lemma searchLoop_eq (s : Store) (q : String)
    (hlen : ∀ r vs, s.get r = some vs → vs.length = MAX_COL) :
    ∀ (l : List ℕ) (acc : List SearchHit),
      searchLoop s q acc l = Except.ok (acc ++ (l.filter (rowMatches s q)).map
        (fun r => ⟨r, renderRow s.headers ((s.get r).getD [])⟩)) := by
  intro l
  induction l with
  | nil => intro acc; simp [searchLoop]
  | cons r rest ih =>
    intro acc
    simp only [searchLoop, searchStep]
    cases hget : s.get r with
    | none =>
      have hm : rowMatches s q r = false := by simp [rowMatches, hget]
      simp only [List.filter_cons, hm, if_neg Bool.false_ne_true, ih]
    | some vs =>
      have hl : vs.length = MAX_COL := hlen r vs hget
      have hne : vs.isEmpty = false := by
        cases vs with
        | nil => simp [MAX_COL] at hl
        | cons a t => rfl
      have hle : ¬(vs.length ≤ 1) := by
        simp only [MAX_COL] at hl; omega
      simp only [hne, Bool.false_eq_true, if_false, if_neg hle]
      cases hb : vs.getD 1 none with
      | none =>
        rw [List.getD_eq_getElem?_getD] at hb
        have hm : rowMatches s q r = false := by
          simp [rowMatches, hget, List.getD_eq_getElem?_getD, hb]
        simp [List.filter_cons, hm, ih]
      | some b =>
        rw [List.getD_eq_getElem?_getD] at hb
        cases hcon : strContainsSub (pyStrip (bNorm b)) q with
        | false =>
          have hm : rowMatches s q r = false := by
            simp [rowMatches, hget, List.getD_eq_getElem?_getD, hb, hcon]
          simp [hcon, List.filter_cons, hm, ih]
        | true =>
          have hm : rowMatches s q r = true := by
            simp [rowMatches, hget, List.getD_eq_getElem?_getD, hb, hcon]
          simp [hcon, List.filter_cons, hm, ih, hget]

/-- C4: for every query that is non-empty after stripping, on a well-formed
store, search succeeds and returns exactly the row indices in
[DATA_START_ROW, max_row] whose stored B-column cell — normalized with the
integral-float rule and trimmed — contains the query as a substring
(containment, not equality); rows come in ascending row order, each carrying
its full rendered row keyed by header letter, and the count equals the
number of matches (an empty match set gives count 0 and an empty list, not
an error). -/
theorem c4_search_exact_rows (s : Store) (hwf : s.WF) (q : String) (hq : ¬(pyStrip q = "")) :
    ∃ res, api_search s q = Except.ok res ∧
      res.rows.map SearchHit.row = (rowRange s).filter (rowMatches s (pyStrip q)) ∧
      List.Pairwise (fun a b => a < b) (res.rows.map SearchHit.row) ∧
      (∀ h ∈ res.rows, h.data = renderRow s.headers ((s.get h.row).getD [])) ∧
      res.count = res.rows.length ∧ res.query = pyStrip q ∧ res.headers = s.headers := by
  have hlen : ∀ r vs, s.get r = some vs → vs.length = MAX_COL := by
    intro r vs h
    obtain ⟨p, hp, he⟩ := Store.get_mem s r vs h
    exact he ▸ hwf.2 p hp
  have hloop := searchLoop_eq s (pyStrip q) hlen
    (List.range' DATA_START_ROW (s.maxRow + 1 - DATA_START_ROW)) []
  rw [List.nil_append] at hloop
  refine ⟨⟨pyStrip q,
    (((rowRange s).filter (rowMatches s (pyStrip q))).map
      (fun r => (⟨r, renderRow s.headers ((s.get r).getD [])⟩ : SearchHit))).length,
    s.headers,
    ((rowRange s).filter (rowMatches s (pyStrip q))).map
      (fun r => (⟨r, renderRow s.headers ((s.get r).getD [])⟩ : SearchHit))⟩,
    ?_, ?_, ?_, ?_, rfl, rfl, rfl⟩
  · unfold api_search
    rw [if_neg hq]
    rw [rowRange] at *
    rw [hloop]
  · rw [List.map_map]
    have hcomp : (SearchHit.row ∘ fun r : ℕ =>
        (⟨r, renderRow s.headers ((s.get r).getD [])⟩ : SearchHit)) = id := rfl
    rw [hcomp, List.map_id]
  · rw [List.map_map]
    have hcomp : (SearchHit.row ∘ fun r : ℕ =>
        (⟨r, renderRow s.headers ((s.get r).getD [])⟩ : SearchHit)) = id := rfl
    rw [hcomp, List.map_id, rowRange]
    exact List.Pairwise.sublist (List.filter_sublist _) (List.pairwise_lt_range' _ _ 1)
  · intro h hm
    obtain ⟨r, _, he⟩ := List.mem_map.mp hm
    rw [← he]

/-- Witness for C4 at storeA, query " 123 " (trims to "123", matching the
B cell "ID-123" of row 6). -/
theorem c4_search_exact_rows_witness :
    storeA.WF ∧ ¬(pyStrip " 123 " = "") ∧
    (∃ res, api_search storeA " 123 " = Except.ok res ∧
      res.rows.map SearchHit.row = (rowRange storeA).filter (rowMatches storeA (pyStrip " 123 ")) ∧
      List.Pairwise (fun a b => a < b) (res.rows.map SearchHit.row) ∧
      (∀ h ∈ res.rows, h.data = renderRow storeA.headers ((storeA.get h.row).getD [])) ∧
      res.count = res.rows.length ∧ res.query = pyStrip " 123 " ∧
      res.headers = storeA.headers) :=
  ⟨by decide, by decide, c4_search_exact_rows storeA (by decide) " 123 " (by decide)⟩

/-- C5: if retrieving or parsing the workbook fails during a rebuild — local
file missing (FileNotFoundError), remote fetch error, undecodable bytes, or
missing sheet — the cache entry is left exactly in its previous state:
rows_data, headers, mtime, source and max_row are all preserved, on both the
OneDrive path and the local path. -/
theorem c5_failed_rebuild_keeps_cache (c : CacheState) (f : FetcherState)
    (now1 now2 : ℚ) (dl : Except String Bytes) (file : Option (ℚ × Bytes))
    (h1 : (get_data_onedrive c f now1 now2 dl).result.isErr = true)
    (h2 : (get_data_local c file).2.isErr = true) :
    (get_data_onedrive c f now1 now2 dl).cache = c ∧ (get_data_local c file).1 = c := by
  constructor
  · unfold get_data_onedrive at h1 ⊢
    by_cases hcond : (c.source == some "onedrive" && c.rowsData.isSome &&
        is_cache_fresh f now1) = true
    · rw [if_pos hcond]
    · rw [if_neg hcond] at h1 ⊢
      cases hr : (fetch_xlsm f now2 dl).2.1 with
      | error e => rfl
      | ok b =>
        have h1x : (commit_onedrive c (fetch_xlsm f now2 dl).1 (fetch_xlsm f now2 dl).2.2
            (load_and_parse b)).result.isErr = true := by
          rw [hr] at h1; exact h1
        cases hlp : load_and_parse b with
        | error e => simp [commit_onedrive, hlp]
        | ok st =>
          rw [hlp] at h1x
          simp [commit_onedrive, Except.isErr] at h1x
  · cases file with
    | none => rfl
    | some p =>
      obtain ⟨mtime, b⟩ := p
      simp only [get_data_local] at h2 ⊢
      by_cases hcond : (c.mtime == some mtime && c.source == some "local") = true
      · rw [if_pos hcond]
      · rw [if_neg hcond] at h2 ⊢
        cases hlp : load_and_parse b with
        | error e => simp [commit_local, hlp]
        | ok st =>
          rw [hlp] at h2
          simp [commit_local, Except.isErr] at h2

/-- Witness for C5: with an empty fetcher, a failing download and a missing
local file, both rebuild paths fail and both leave the cache untouched. -/
theorem c5_failed_rebuild_keeps_cache_witness :
    (get_data_onedrive cacheE fetcherE 0 0 (Except.error "network down")).result.isErr = true ∧
    (get_data_local cacheE none).2.isErr = true ∧
    ((get_data_onedrive cacheE fetcherE 0 0 (Except.error "network down")).cache = cacheE ∧
      (get_data_local cacheE none).1 = cacheE) :=
  ⟨by decide, by decide,
    c5_failed_rebuild_keeps_cache cacheE fetcherE 0 0 (Except.error "network down") none
      (by decide) (by decide)⟩

/-- `commit_onedrive` reports exactly the didFetch flag it was given. -/
lemma commit_onedrive_didFetch (c : CacheState) (f2 : FetcherState) (did : Bool)
    (lp : Except String Store) : (commit_onedrive c f2 did lp).didFetch = did := by
  cases lp <;> rfl

/-- C9: on a remote source, an explicit refresh unconditionally drops the
fetcher's cached bytes and resets fetched_at to 0, clears the Sheet Cache's
rows, and therefore the next read performs a real re-retrieval (didFetch)
for every clock value — even if the prior 5-minute freshness window had not
expired — and for every download outcome. -/
theorem c9_refresh_invalidates (c : CacheState) (f : FetcherState)
    (now1 now2 : ℚ) (dl : Except String Bytes) :
    ((refresh_onedrive c f).2).data = none ∧
    ((refresh_onedrive c f).2).fetchedAt = 0 ∧
    ((refresh_onedrive c f).1).rowsData = none ∧
    (get_data_onedrive (refresh_onedrive c f).1 (refresh_onedrive c f).2 now1 now2 dl).didFetch
      = true := by
  refine ⟨rfl, rfl, rfl, ?_⟩
  cases dl with
  | error e => rfl
  | ok b => exact commit_onedrive_didFetch _ _ true (load_and_parse b)

/-- Every row stored by the parse loop lies at or after the starting index
and has at least one non-null cell. -/
lemma parseRowsGo_mem : ∀ (input : List (List (Option PyValue))) (r0 r : ℕ)
    (vs : List (Option PyValue)), (r, vs) ∈ parseRowsGo r0 input →
    r0 ≤ r ∧ vs.any Option.isSome = true := by
  intro input
  induction input with
  | nil => intro r0 r vs h; simp [parseRowsGo] at h
  | cons v rest ih =>
    intro r0 r vs h
    simp only [parseRowsGo] at h
    by_cases hv : v.any Option.isSome = true
    · rw [if_pos hv] at h
      rcases List.mem_cons.mp h with h1 | h1
      · injection h1 with he1 he2
        subst he1; subst he2
        exact ⟨le_refl _, hv⟩
      · have := ih (r0+1) r vs h1
        exact ⟨by omega, this.2⟩
    · rw [if_neg hv] at h
      have := ih (r0+1) r vs h
      exact ⟨by omega, this.2⟩

/-- The last-stored-row fold bounds every stored row index from above. -/
lemma parseRowsGo_le_lastKey : ∀ (input : List (List (Option PyValue))) (r0 init : ℕ),
    init ≤ r0 →
    init ≤ lastKey init (parseRowsGo r0 input) ∧
    ∀ r vs, (r, vs) ∈ parseRowsGo r0 input → r ≤ lastKey init (parseRowsGo r0 input) := by
  intro input
  induction input with
  | nil =>
    intro r0 init h
    refine ⟨le_refl init, ?_⟩
    intro r vs hm
    simp [parseRowsGo] at hm
  | cons v rest ih =>
    intro r0 init hle
    simp only [parseRowsGo]
    by_cases hv : v.any Option.isSome = true
    · rw [if_pos hv]
      have hrec := ih (r0+1) r0 (by omega)
      rw [lastKey, List.foldl_cons]
      constructor
      · exact le_trans hle hrec.1
      · intro r vs hm
        rcases List.mem_cons.mp hm with h1 | h1
        · injection h1 with he1 he2
          subst he1
          exact hrec.1
        · exact hrec.2 r vs h1
    · rw [if_neg hv]
      exact ih (r0+1) init (by omega)

/-- C6: every Row Store produced by parsing a workbook stores a row index
only if at least one of its cells is non-null (`0` and `False` are non-null
values and count as present), and every stored row index lies within
[HEADER_ROW, max_row]. -/
theorem c6_rowstore_invariant (input : List (List (Option PyValue))) (r : ℕ)
    (vs : List (Option PyValue)) (hmem : (r, vs) ∈ (parse_workbook input).rowsData) :
    HEADER_ROW ≤ r ∧ r ≤ (parse_workbook input).maxRow ∧ vs.any Option.isSome = true := by
  have hmem2 : (r, vs) ∈ parseRowsGo HEADER_ROW input := hmem
  have h1 := parseRowsGo_mem input HEADER_ROW r vs hmem2
  have h2 := parseRowsGo_le_lastKey input HEADER_ROW HEADER_ROW (le_refl _)
  exact ⟨h1.1, h2.2 r vs hmem2, h1.2⟩

/-- Witness for C6 at inputF, row 5. -/
theorem c6_rowstore_invariant_witness :
    ((5, [some (PyValue.intv 0)]) ∈ (parse_workbook inputF).rowsData) ∧
    (HEADER_ROW ≤ 5 ∧ 5 ≤ (parse_workbook inputF).maxRow ∧
      ([some (PyValue.intv 0)] : List (Option PyValue)).any Option.isSome = true) :=
  ⟨by decide, c6_rowstore_invariant inputF 5 [some (PyValue.intv 0)] (by decide)⟩

/-- In a row with no non-null cell, every position reads as null. -/
lemma getD_none_of_any_false (v : List (Option PyValue)) (i : ℕ)
    (hv : v.any Option.isSome = false) : v.getD i none = none := by
  rw [List.getD_eq_getElem?_getD]
  cases hvi : v[i]? with
  | none => rfl
  | some c =>
    have hc : c ∈ v := List.getElem?_mem hvi
    have := (List.any_eq_false.mp hv) c hc
    cases c with
    | none => rfl
    | some x => simp at this

/-- The `header_values` row that `_parse_workbook` reads (stored header row,
else the all-None default) agrees pointwise with the raw input's header row
for every column index below MAX_COL. -/
lemma parse_headerValues (input : List (List (Option PyValue))) (i : ℕ) (hi : i < MAX_COL) :
    ((((parseRowsGo HEADER_ROW input).find? (fun p => p.1 == HEADER_ROW)).map
        (fun p => p.2)).getD (List.replicate MAX_COL none)).getD i none =
      headerCell input i := by
  cases input with
  | nil =>
    simp only [parseRowsGo, List.find?_nil, Option.map_none', Option.getD_none, headerCell]
    rw [List.getD_eq_getElem?_getD, List.getElem?_replicate, if_pos hi]
    rfl
  | cons v rest =>
    by_cases hv : v.any Option.isSome = true
    · simp only [parseRowsGo, if_pos hv, headerCell]
      rw [List.find?_cons]
      simp only [beq_self_eq_true]
      rfl
    · simp only [parseRowsGo, if_neg hv, headerCell]
      have hnone : (parseRowsGo (HEADER_ROW+1) rest).find? (fun p => p.1 == HEADER_ROW)
          = none := by
        rw [List.find?_eq_none]
        intro p hp hbeq
        have hm := parseRowsGo_mem rest (HEADER_ROW+1) p.1 p.2 (by simpa using hp)
        have : p.1 = HEADER_ROW := by simpa using hbeq
        omega
      rw [hnone]
      simp only [Option.map_none', Option.getD_none]
      rw [List.getD_eq_getElem?_getD, List.getElem?_replicate, if_pos hi]
      have hv2 : v.any Option.isSome = false := by
        cases hx : v.any Option.isSome with
        | false => rfl
        | true => exact absurd hx hv
      rw [show ((v :: rest).getD 0 []) = v from rfl]
      rw [getD_none_of_any_false v i hv2]
      rfl

/-- The parsed header entry at 0-based index i < MAX_COL. -/
lemma parse_header_entry (input : List (List (Option PyValue))) (i : ℕ) (hi : i < MAX_COL) :
    (parse_workbook input).headers.getD i dummyHeader =
      ⟨i+1, colLetter (i+1), headerNameOf (headerCell input i) (colLetter (i+1))⟩ := by
  have hmap : (parse_workbook input).headers.getD i dummyHeader =
      ⟨i+1, colLetter (i+1),
        headerNameOf (((((parseRowsGo HEADER_ROW input).find?
            (fun p => p.1 == HEADER_ROW)).map (fun p => p.2)).getD
          (List.replicate MAX_COL none)).getD i none) (colLetter (i+1))⟩ := by
    unfold parse_workbook
    rw [List.getD_eq_getElem?_getD, List.getElem?_map, List.getElem?_range hi]
    rfl
  rw [hmap, parse_headerValues input i hi]

/-- C8 (amended): for every column, the header display name is the header-row
cell value when one is present and truthy, and is the synthesized
placeholder "(<letter>)" when the header-row cell is absent or its value is
Python-falsy (None, empty string, 0, 0.0 or False). -/
theorem c8_header_fallback (input : List (List (Option PyValue))) (i : ℕ)
    (hi : i < MAX_COL) :
    ∃ h, (parse_workbook input).headers.getD i dummyHeader = h ∧
      h.col = i + 1 ∧ h.letter = colLetter (i+1) ∧
      (headerCell input i = none → h.name = .text ("(" ++ colLetter (i+1) ++ ")")) ∧
      (∀ v, headerCell input i = some v → v.falsy = true →
        h.name = .text ("(" ++ colLetter (i+1) ++ ")")) ∧
      (∀ v, headerCell input i = some v → v.falsy = false → h.name = v) := by
  refine ⟨_, parse_header_entry input i hi, rfl, rfl, ?_, ?_, ?_⟩
  · intro hnone
    simp [headerNameOf, hnone]
  · intro v hsome hf
    simp [headerNameOf, hsome, hf]
  · intro v hsome hf
    simp [headerNameOf, hsome, hf]

/-- Witness for C8 at inputG, column index 0. -/
theorem c8_header_fallback_witness :
    0 < MAX_COL ∧
    (∃ h, (parse_workbook inputG).headers.getD 0 dummyHeader = h ∧
      h.col = 0 + 1 ∧ h.letter = colLetter (0+1) ∧
      (headerCell inputG 0 = none → h.name = .text ("(" ++ colLetter (0+1) ++ ")")) ∧
      (∀ v, headerCell inputG 0 = some v → v.falsy = true →
        h.name = .text ("(" ++ colLetter (0+1) ++ ")")) ∧
      (∀ v, headerCell inputG 0 = some v → v.falsy = false → h.name = v)) :=
  ⟨by decide, c8_header_fallback inputG 0 (by decide)⟩

/-- C8 counterexample: in inputF the header-row cell of column A is present
with value 0 (neither empty nor absent), yet the display name is the
placeholder "(A)", not the cell value — the claim's "placeholder exactly
when the cell is empty/absent" fails on falsy values such as 0. -/
theorem c8_zero_header_counterexample :
    headerCell inputF 0 = some (PyValue.intv 0) ∧
    (parse_workbook inputF).headers.getD 0 dummyHeader = ⟨1, "A", PyValue.text "(A)"⟩ ∧
    PyValue.text "(A)" ≠ PyValue.intv 0 := by
  refine ⟨by decide, by decide, by decide⟩
